import Mathlib

/-!
Verification of the `blitz-frost/http` transport adapter (src/http.go),
shallowly embedded in Lean 4.

Modelling conventions:
* Bytes are `Nat`; byte streams are `List Nat`.
* The HTTP response sink (`http.ResponseWriter` from Go's net/http) is a
  `RespState` value: a header list, an optional committed status, and the
  body bytes sent so far.  Per net/http semantics, the first `Write` call
  commits status 200 if no status was written yet, and a `WriteHeader`
  call after the status is committed is a superfluous no-op.
* An exchange responder (`msg.ExchangeReaderTaker`) only interacts with
  the HTTP exchange through the reader/writer capability interface, so it
  is modelled by its observable interaction: as a function of the request
  body it yields the list of byte slices it writes through the paired
  writer, in order, and the error it returns.
* The outbound HTTP transport (`http.Client.Post`) is an oracle
  `Request → PostResult`.  When the transport returns an HTTP response,
  the request was transmitted, so the request body (the writer's
  `bytes.Buffer`) was read to EOF, draining it; on a transport-level
  failure (dial or DNS error) the failure precedes any read of the
  request body, so the buffer keeps its bytes.
-/

namespace BlitzHttp

/-- State of an HTTP response sink (`http.ResponseWriter`): headers added so
far, the committed status (if any), and the body bytes written so far. -/
structure RespState where
  headers : List (String × String)
  status : Option Nat
  body : List Nat
  deriving Repr, DecidableEq

/-- A fresh response sink: no headers, no committed status, empty body. -/
def RespState.init : RespState := ⟨[], none, []⟩

/-- Go `w.Header().Add(k, v)`: appends a header entry. -/
def headerAdd (s : RespState) (k v : String) : RespState :=
  { s with headers := s.headers ++ [(k, v)] }

/-- Go `w.Write(b)` on a `http.ResponseWriter`: commits status 200 on the
first write if no status was written yet, then appends the bytes. -/
def respWrite (s : RespState) (b : List Nat) : RespState :=
  match s.status with
  | none => { s with status := some 200, body := s.body ++ b }
  | some _ => { s with body := s.body ++ b }

/-- Go `w.WriteHeader(code)`: commits the status if none is committed yet;
a later call is superfluous and ignored by net/http. -/
def writeHeader (s : RespState) (code : Nat) : RespState :=
  match s.status with
  | none => { s with status := some code }
  | some _ => s

/-- The status the HTTP caller observes once the handler returns: the
committed status, or net/http's default 200 if the handler never wrote. -/
def observedStatus (s : RespState) : Nat := s.status.getD 200

/-- An exchange responder (`msg.ExchangeReaderTaker`), modelled by its
observable interaction through the reader/writer capability interface:
given the request body, the byte slices it writes through the paired
writer (in write order) and the error it returns. -/
def RespondFn : Type := List Nat → List (List Nat) × Option String

/-- `Handler` (src/http.go line 39): holds the chained responder; the Go
zero value has a nil interface, modelled as `none`. -/
structure Handler where
  ert : Option RespondFn

/-- `Handler.ReaderChain` (src/http.go lines 45-48): stores the responder
and returns nil. -/
def readerChain (x : Handler) (ert : RespondFn) : Handler × Option String :=
  ({ x with ert := some ert }, none)

/-- `Handler.ServeHTTP` (src/http.go lines 50-59): invokes the bound
responder on the paired reader/writer, then writes status 400 if the
responder returned an error. -/
def serveHTTP (ert : RespondFn) (reqBody : List Nat) : RespState :=
  let out := ert reqBody
  let s := out.1.foldl respWrite RespState.init
  match out.2 with
  | some _ => writeHeader s 400
  | none => s

/-- `Client` (src/http.go lines 13-16): an address plus an HTTP transport
handle; the transport itself is abstracted into the `post` oracle passed
to `writerReader`, so only the address is carried. -/
structure Client where
  addr : String
  deriving Repr, DecidableEq

/-- `ClientMake` (src/http.go lines 20-28): builds a Client for the given
address (the nil-transport default only selects the transport handle,
which the embedding abstracts into the `post` oracle). -/
def ClientMake (addr : String) : Client := ⟨addr⟩

/-- `writer` (src/http.go lines 81-84): the outbound exchange writer, a
byte accumulation buffer plus its Client. -/
structure WriterSt where
  buf : List Nat
  cli : Client
  deriving Repr, DecidableEq

/-- `Client.Writer` (src/http.go lines 30-34): a fresh writer bound to the
client, with nil error. -/
def clientWriter (x : Client) : WriterSt × Option String :=
  (⟨[], x⟩, none)

/-- `writer.Write` (src/http.go lines 104-106): appends to the buffer;
`bytes.Buffer.Write` returns `(len(b), nil)`. -/
def writerWrite (x : WriterSt) (b : List Nat) : (Nat × Option String) × WriterSt :=
  ((b.length, none), { x with buf := x.buf ++ b })

/-- A sequence of `writer.Write` calls, in order. -/
def writeAll (x : WriterSt) (bs : List (List Nat)) : WriterSt :=
  bs.foldl (fun a b => (writerWrite a b).2) x

/-- An outgoing HTTP request as handed to `http.Client.Post`. -/
structure Request where
  addr : String
  contentType : String
  body : List Nat
  deriving Repr, DecidableEq

/-- Outcome of one `http.Client.Post` call: a transport-level failure, or
an HTTP response with its numeric status code, status text, and body. -/
inductive PostResult where
  | fail (e : String)
  | resp (statusCode : Nat) (status : String) (body : List Nat)
  deriving Repr, DecidableEq

/-- Result of `writer.Reader`: the response-body reader (as the byte
sequence it can read), the returned error, the list of HTTP requests sent
during the call, and the writer's state afterwards. -/
structure ReaderOut where
  reader : Option (List Nat)
  error : Option String
  sent : List Request
  writerAfter : WriterSt
  deriving Repr, DecidableEq

/-- `writer.Reader` (src/http.go lines 91-102): posts the buffered bytes
to the client address with content type application/octet-stream, then
returns the transport error verbatim, or an error naming the status text
on a non-200 status, or a reader over the response body on status 200.
When an HTTP response came back the request was transmitted, so the
`bytes.Buffer` was read to EOF and is empty afterwards; on a
transport-level failure the body was never read and the buffer keeps its
bytes (Go's `Client.Do` only closes the body on such a failure). -/
def writerReader (post : Request → PostResult) (x : WriterSt) : ReaderOut :=
  let req : Request := ⟨x.cli.addr, "application/octet-stream", x.buf⟩
  let xa : WriterSt := { x with buf := [] }
  match post req with
  | .fail e => ⟨none, some e, [req], x⟩
  | .resp code status body =>
      if code = 200 then ⟨some body, none, [req], xa⟩
      else ⟨none, some ("http response status " ++ status), [req], xa⟩

/-- An inbound HTTP exchange: an identity plus its request body.  The
reader and writer that `Handler.ServeHTTP` constructs are both bound to
one such exchange. -/
structure HttpExchange where
  id : Nat
  reqBody : List Nat
  deriving Repr, DecidableEq

/-- `writerResp` (src/http.go lines 108-110): the paired writer, wrapping
the response sink of one HTTP exchange. -/
structure WriterResp where
  exchId : Nat
  deriving Repr, DecidableEq

/-- `reader` (src/http.go lines 62-65): the inbound exchange reader, over
the request body of one HTTP exchange, holding its paired writer. -/
structure ReaderT where
  rExchId : Nat
  rBytes : List Nat
  w : WriterResp
  deriving Repr, DecidableEq

/-- The reader/writer pairing constructed by `Handler.ServeHTTP`
(src/http.go lines 51-54): the reader wraps the request body and the
writer wraps the response sink of the same HTTP exchange. -/
def mkPair (e : HttpExchange) : ReaderT :=
  ⟨e.id, e.reqBody, ⟨e.id⟩⟩

/-- `reader.Writer` (src/http.go lines 76-78): returns the paired writer
and nil. -/
def readerWriterGet (x : ReaderT) : WriterResp × Option String :=
  (x.w, none)

/-- Method string constant `http.MethodOptions`. -/
def methodOptions : String := "OPTIONS"

/-- `HandlerCORS` (src/http.go lines 117-132): on OPTIONS, adds the three
CORS headers and writes "OK" (bytes 79, 75) without invoking the inner
handler; otherwise adds the allow-origin header and delegates.  Returns
the final response state and how many times the inner handler ran. -/
def handlerCORS (origin : String) (inner : RespState → RespState)
    (method : String) (s : RespState) : RespState × Nat :=
  if method = methodOptions then
    let s1 := headerAdd s "access-control-allow-origin" origin
    let s2 := headerAdd s1 "access-control-allow-method" "POST"
    let s3 := headerAdd s2 "access-control-allow-headers" "content-type"
    (respWrite s3 [79, 75], 0)
  else
    (inner (headerAdd s "access-control-allow-origin" origin), 1)

/-! Helper lemmas shared by the claim theorems. -/

theorem foldl_respWrite_body (bs : List (List Nat)) :
    ∀ s : RespState, (bs.foldl respWrite s).body = s.body ++ bs.flatten := by
  induction bs with
  | nil => intro s; simp
  | cons b bs ih =>
      intro s
      simp only [List.foldl_cons, List.flatten_cons, ih]
      cases h : s.status <;> simp [respWrite, h, List.append_assoc]

theorem foldl_respWrite_status_some (bs : List (List Nat)) (c : Nat) :
    ∀ s : RespState, s.status = some c → (bs.foldl respWrite s).status = some c := by
  induction bs with
  | nil => intro s h; simpa using h
  | cons b bs ih =>
      intro s h
      simp only [List.foldl_cons]
      exact ih _ (by simp [respWrite, h])

theorem foldl_respWrite_status_none (bs : List (List Nat)) (s : RespState)
    (h : s.status = none) :
    (bs.foldl respWrite s).status = if bs.isEmpty then none else some 200 := by
  cases bs with
  | nil => simpa using h
  | cons b bs =>
      simp only [List.foldl_cons, List.isEmpty_cons, Bool.false_eq_true, if_false]
      exact foldl_respWrite_status_some bs 200 _ (by simp [respWrite, h])

theorem writeAll_buf (bs : List (List Nat)) :
    ∀ x : WriterSt, (writeAll x bs).buf = x.buf ++ bs.flatten := by
  induction bs with
  | nil => intro x; simp [writeAll]
  | cons b bs ih =>
      intro x
      have hstep : writeAll x (b :: bs) = writeAll { x with buf := x.buf ++ b } bs := rfl
      rw [hstep, ih]
      simp [List.append_assoc]

theorem writeAll_cli (bs : List (List Nat)) :
    ∀ x : WriterSt, (writeAll x bs).cli = x.cli := by
  induction bs with
  | nil => intro x; simp [writeAll]
  | cons b bs ih =>
      intro x
      have hstep : writeAll x (b :: bs) = writeAll { x with buf := x.buf ++ b } bs := rfl
      rw [hstep, ih]

theorem writerReader_sent_eq (post : Request → PostResult) (x : WriterSt) :
    (writerReader post x).sent = [⟨x.cli.addr, "application/octet-stream", x.buf⟩] := by
  unfold writerReader
  cases h : post ⟨x.cli.addr, "application/octet-stream", x.buf⟩ with
  | fail e => simp [h]
  | resp code status body =>
      by_cases hc : code = 200 <;> simp [h, hc]

theorem writerReader_after_of_resp (post : Request → PostResult) (x : WriterSt)
    (code : Nat) (st : String) (body : List Nat)
    (h : post ⟨x.cli.addr, "application/octet-stream", x.buf⟩ =
      .resp code st body) :
    (writerReader post x).writerAfter = { x with buf := [] } := by
  simp only [writerReader]
  rw [h]
  by_cases hc : code = 200 <;> simp [hc]

/-! Claim theorems. -/

/-- C1, counterexample: a responder that writes the byte 1 through the paired
writer and then returns an error.  The observed status is 200 (the first
Write committed it; the later WriteHeader 400 is superfluous and ignored by
net/http) and the body is [1], refuting "status 400 and an empty body
regardless of any bytes the responder may already have written". -/
theorem serveHTTP_error_after_write_not_400 :
    (((fun _ => ([[1]], some "boom")) : RespondFn) []).2 = some "boom" ∧
    observedStatus (serveHTTP (fun _ => ([[1]], some "boom")) []) = 200 ∧
    (serveHTTP (fun _ => ([[1]], some "boom")) []).body = [1] := by
  refine ⟨rfl, ?_, ?_⟩ <;> rfl

/-- C1, amended: whenever the bound responder returns a non-nil error AND
issued no Write calls on the paired writer before returning, the HTTP
response observed by the caller has status 400 and an empty body. -/
theorem serveHTTP_error_no_writes_gives_400 (ert : RespondFn) (b : List Nat)
    (e : String) (herr : (ert b).2 = some e) (hw : (ert b).1 = []) :
    observedStatus (serveHTTP ert b) = 400 ∧ (serveHTTP ert b).body = [] := by
  simp only [serveHTTP]
  rw [hw, herr]
  exact ⟨rfl, rfl⟩

/-- C1, witness for the amended theorem at the responder that writes nothing
and returns the error "boom" on the empty request body. -/
theorem serveHTTP_error_no_writes_gives_400_witness :
    observedStatus (serveHTTP (fun _ => ([], some "boom")) []) = 400 ∧
    (serveHTTP (fun _ => ([], some "boom")) []).body = [] :=
  serveHTTP_error_no_writes_gives_400 (fun _ => ([], some "boom")) [] "boom" rfl rfl

/-- C2: if the bound responder returns nil, the bridge commits no status
other than the stack default 200 (the status field is still none, or some
200 committed by the responder's own first Write), the observed status is
200, and the response body is exactly the concatenation of the byte slices
the responder wrote via the paired writer, in order. -/
theorem serveHTTP_ok_passthrough (ert : RespondFn) (b : List Nat)
    (h : (ert b).2 = none) :
    observedStatus (serveHTTP ert b) = 200 ∧
    (serveHTTP ert b).body = ((ert b).1).flatten ∧
    ((serveHTTP ert b).status = none ∨ (serveHTTP ert b).status = some 200) := by
  have hser : serveHTTP ert b = (ert b).1.foldl respWrite RespState.init := by
    show (match (ert b).2 with
      | some _ => writeHeader ((ert b).1.foldl respWrite RespState.init) 400
      | none => (ert b).1.foldl respWrite RespState.init) =
        (ert b).1.foldl respWrite RespState.init
    rw [h]
  rw [hser]
  have hb := foldl_respWrite_body (ert b).1 RespState.init
  have hs := foldl_respWrite_status_none (ert b).1 RespState.init rfl
  refine ⟨?_, by simpa [RespState.init] using hb, ?_⟩
  · unfold observedStatus
    rw [hs]
    cases hE : (ert b).1.isEmpty <;> simp
  · rw [hs]
    cases hE : (ert b).1.isEmpty <;> simp

/-- C2, witness at a responder writing [1,2] then [3] and returning nil. -/
theorem serveHTTP_ok_passthrough_witness :
    observedStatus (serveHTTP (fun _ => ([[1, 2], [3]], none)) []) = 200 ∧
    (serveHTTP (fun _ => ([[1, 2], [3]], none)) []).body =
      (((fun _ => ([[1, 2], [3]], none)) : RespondFn) []).1.flatten ∧
    ((serveHTTP (fun _ => ([[1, 2], [3]], none)) []).status = none ∨
      (serveHTTP (fun _ => ([[1, 2], [3]], none)) []).status = some 200) :=
  serveHTTP_ok_passthrough (fun _ => ([[1, 2], [3]], none)) [] rfl

/-- C3: every Write call appends and returns (len b, nil), and the phase
transition on a fresh writer that received the slices bs sends exactly one
HTTP POST, to the client address, with content type
application/octet-stream and body the concatenation of bs in write order. -/
theorem writerReader_posts_concat (cli : Client) (bs : List (List Nat))
    (post : Request → PostResult) :
    (∀ (w : WriterSt) (b : List Nat),
        (writerWrite w b).1 = (b.length, none) ∧
        (writerWrite w b).2.buf = w.buf ++ b) ∧
    (writerReader post (writeAll (clientWriter cli).1 bs)).sent =
      [⟨cli.addr, "application/octet-stream", bs.flatten⟩] := by
  refine ⟨fun w b => ⟨rfl, rfl⟩, ?_⟩
  rw [writerReader_sent_eq]
  rw [writeAll_buf, writeAll_cli]
  rfl

/-- C4: if the remote endpoint answers the posted request with status 200,
writer.Reader returns nil error and a reader whose readable bytes are
exactly the response body bytes. -/
theorem writerReader_200_reader (post : Request → PostResult) (x : WriterSt)
    (st : String) (body : List Nat)
    (h : post ⟨x.cli.addr, "application/octet-stream", x.buf⟩ =
      .resp 200 st body) :
    (writerReader post x).reader = some body ∧
    (writerReader post x).error = none := by
  simp only [writerReader]
  rw [h]
  exact ⟨rfl, rfl⟩

/-- C4, witness at a transport that always answers 200 with body [7, 8]. -/
theorem writerReader_200_reader_witness :
    (writerReader (fun _ => .resp 200 "200 OK" [7, 8])
      (clientWriter (ClientMake "addr")).1).reader = some [7, 8] ∧
    (writerReader (fun _ => .resp 200 "200 OK" [7, 8])
      (clientWriter (ClientMake "addr")).1).error = none :=
  writerReader_200_reader (fun _ => .resp 200 "200 OK" [7, 8])
    (clientWriter (ClientMake "addr")).1 "200 OK" [7, 8] rfl

/-- C5: on any response status other than 200, writer.Reader returns a nil
reader and the error "http response status " followed by the HTTP status
text, so the error text contains the status text; the response body does
not appear in the result. -/
theorem writerReader_non200_error (post : Request → PostResult) (x : WriterSt)
    (code : Nat) (st : String) (body : List Nat)
    (h : post ⟨x.cli.addr, "application/octet-stream", x.buf⟩ =
      .resp code st body)
    (hne : code ≠ 200) :
    (writerReader post x).reader = none ∧
    (writerReader post x).error = some ("http response status " ++ st) ∧
    ∃ p, "http response status " ++ st = p ++ st := by
  simp only [writerReader]
  rw [h]
  refine ⟨?_, ?_, ⟨"http response status ", rfl⟩⟩ <;> simp [hne]

/-- C5, witness at a transport that always answers 404. -/
theorem writerReader_non200_error_witness :
    (writerReader (fun _ => .resp 404 "404 Not Found" [9])
      (clientWriter (ClientMake "addr")).1).reader = none ∧
    (writerReader (fun _ => .resp 404 "404 Not Found" [9])
      (clientWriter (ClientMake "addr")).1).error =
        some ("http response status " ++ "404 Not Found") ∧
    ∃ p, "http response status " ++ "404 Not Found" = p ++ "404 Not Found" :=
  writerReader_non200_error (fun _ => .resp 404 "404 Not Found" [9])
    (clientWriter (ClientMake "addr")).1 404 "404 Not Found" [9] rfl (by decide)

/-- C6: if the HTTP send itself fails, writer.Reader returns that error
verbatim with a nil reader, and exactly one send attempt was made. -/
theorem writerReader_transport_error (post : Request → PostResult)
    (x : WriterSt) (e : String)
    (h : post ⟨x.cli.addr, "application/octet-stream", x.buf⟩ = .fail e) :
    (writerReader post x).error = some e ∧
    (writerReader post x).reader = none ∧
    (writerReader post x).sent =
      [⟨x.cli.addr, "application/octet-stream", x.buf⟩] := by
  simp only [writerReader]
  rw [h]
  exact ⟨rfl, rfl, rfl⟩

/-- C6, witness at a transport that always fails with a dial error. -/
theorem writerReader_transport_error_witness :
    (writerReader (fun _ => .fail "dial tcp: connection refused")
      (clientWriter (ClientMake "addr")).1).error =
        some "dial tcp: connection refused" ∧
    (writerReader (fun _ => .fail "dial tcp: connection refused")
      (clientWriter (ClientMake "addr")).1).reader = none ∧
    (writerReader (fun _ => .fail "dial tcp: connection refused")
      (clientWriter (ClientMake "addr")).1).sent =
        [⟨"addr", "application/octet-stream", []⟩] :=
  writerReader_transport_error (fun _ => .fail "dial tcp: connection refused")
    (clientWriter (ClientMake "addr")).1 "dial tcp: connection refused" rfl

/-- C7: on an OPTIONS request the inner handler never runs and the response
carries exactly the three CORS headers with the default-status (200) body
"OK" (bytes 79, 75); on any other method the inner handler runs exactly
once on a response state carrying only the allow-origin header. -/
theorem handlerCORS_behaviour (origin : String) (inner : RespState → RespState)
    (method : String) (hm : method ≠ methodOptions) :
    handlerCORS origin inner methodOptions RespState.init =
      ({ headers := [("access-control-allow-origin", origin),
                     ("access-control-allow-method", "POST"),
                     ("access-control-allow-headers", "content-type")],
         status := some 200, body := [79, 75] }, 0) ∧
    handlerCORS origin inner method RespState.init =
      (inner { headers := [("access-control-allow-origin", origin)],
               status := none, body := [] }, 1) := by
  constructor
  · rfl
  · unfold handlerCORS
    rw [if_neg hm]
    rfl

/-- C7, witness at origin "o", the identity inner handler, and method POST. -/
theorem handlerCORS_behaviour_witness :
    handlerCORS "o" id methodOptions RespState.init =
      ({ headers := [("access-control-allow-origin", "o"),
                     ("access-control-allow-method", "POST"),
                     ("access-control-allow-headers", "content-type")],
         status := some 200, body := [79, 75] }, 0) ∧
    handlerCORS "o" id "POST" RespState.init =
      (id { headers := [("access-control-allow-origin", "o")],
            status := none, body := [] }, 1) :=
  handlerCORS_behaviour "o" id "POST" (by decide)

/-- C8: the reader/writer pairing built by ServeHTTP refers to one and the
same HTTP exchange on both sides, the reader wraps that exchange's request
body, and the Writer accessor returns exactly the paired writer together
with a nil error. -/
theorem mkPair_same_exchange (e : HttpExchange) :
    readerWriterGet (mkPair e) = ((mkPair e).w, none) ∧
    (mkPair e).w.exchId = e.id ∧
    (mkPair e).rExchId = e.id ∧
    (mkPair e).rBytes = e.reqBody :=
  ⟨rfl, rfl, rfl, rfl⟩

/-- C9: ReaderChain stores the given responder as the one used afterwards,
returns nil, and a second call replaces the first (last write wins). -/
theorem readerChain_last_write_wins (x : Handler) (f g : RespondFn) :
    (readerChain x f).2 = none ∧
    (readerChain x f).1.ert = some f ∧
    (readerChain (readerChain x f).1 g).1.ert = some g :=
  ⟨rfl, rfl, rfl⟩

/-- C10, counterexample: after a transition whose send fails at the
transport level (dial error), the buffer still holds the byte 1 — it is
not empty — and a second call to writer.Reader re-posts that old byte
rather than an empty body, refuting the unconditional "after a transition
the buffer is empty" and "second POST carries only post-transition
bytes". -/
theorem writerReader_fail_transition_keeps_buffer :
    (writerReader (fun _ => .fail "dial tcp: connection refused")
      ⟨[1], ClientMake "addr"⟩).writerAfter.buf = [1] ∧
    (writerReader (fun _ => .fail "dial tcp: connection refused")
      ⟨[1], ClientMake "addr"⟩).writerAfter.buf ≠ [] ∧
    (writerReader (fun _ => .fail "dial tcp: connection refused")
      ((writerReader (fun _ => .fail "dial tcp: connection refused")
        ⟨[1], ClientMake "addr"⟩).writerAfter)).sent =
      [⟨"addr", "application/octet-stream", [1]⟩] := by
  refine ⟨rfl, ?_, rfl⟩
  decide

/-- C10, amended: the transition posts the writer's own buffer as the
request body; in every transition whose send receives an HTTP response
(the request was transmitted and the transport read the buffer to EOF),
the buffer is empty afterwards, and a second transition posts only the
bytes written after the first one, an empty body if none were.  After a
transport-level failure the buffer keeps its bytes. -/
theorem writerReader_drains_on_response (post post2 post3 : Request → PostResult)
    (x : WriterSt) (bs : List (List Nat)) (code : Nat) (st : String)
    (body : List Nat)
    (h : post ⟨x.cli.addr, "application/octet-stream", x.buf⟩ =
      .resp code st body) :
    ((writerReader post x).sent).map Request.body = [x.buf] ∧
    (writerReader post x).writerAfter.buf = [] ∧
    (writerReader post2
        (writeAll (writerReader post x).writerAfter bs)).sent =
      [⟨x.cli.addr, "application/octet-stream", bs.flatten⟩] ∧
    (writerReader post3 (writerReader post x).writerAfter).sent =
      [⟨x.cli.addr, "application/octet-stream", []⟩] := by
  have ha := writerReader_after_of_resp post x code st body h
  refine ⟨?_, ?_, ?_, ?_⟩
  · rw [writerReader_sent_eq]
    rfl
  · rw [ha]
  · rw [writerReader_sent_eq, writeAll_buf, writeAll_cli, ha]
    rfl
  · rw [writerReader_sent_eq, ha]

/-- C10, witness for the amended theorem: a writer holding the byte 5
transitions against a transport answering 200; the buffer is drained and
a second transition after writing [2] and [3] posts exactly [2, 3]. -/
theorem writerReader_drains_on_response_witness :
    ((writerReader (fun _ => .resp 200 "200 OK" [])
        ⟨[5], ClientMake "addr"⟩).sent).map Request.body = [[5]] ∧
    (writerReader (fun _ => .resp 200 "200 OK" [])
      ⟨[5], ClientMake "addr"⟩).writerAfter.buf = [] ∧
    (writerReader (fun _ => .resp 200 "200 OK" [])
        (writeAll (writerReader (fun _ => .resp 200 "200 OK" [])
          ⟨[5], ClientMake "addr"⟩).writerAfter [[2], [3]])).sent =
      [⟨"addr", "application/octet-stream", [[2], [3]].flatten⟩] ∧
    (writerReader (fun _ => .resp 200 "200 OK" [])
        (writerReader (fun _ => .resp 200 "200 OK" [])
          ⟨[5], ClientMake "addr"⟩).writerAfter).sent =
      [⟨"addr", "application/octet-stream", []⟩] :=
  writerReader_drains_on_response (fun _ => .resp 200 "200 OK" [])
    (fun _ => .resp 200 "200 OK" []) (fun _ => .resp 200 "200 OK" [])
    ⟨[5], ClientMake "addr"⟩ [[2], [3]] 200 "200 OK" [] rfl

end BlitzHttp
